import Mathlib

/-!
Shallow embedding of the claim policy-compliance evaluator, the edit/resubmit
gate and the document-upload intake of the expense-claim web application
(frontend/src/pages/SystemAdminSettings.tsx, frontend/src/hooks/usePolicies.ts,
frontend/src/components/claims/PolicyChecks.tsx), together with reference
definitions written from the specification, and proofs comparing the two.

Conventions of the embedding:
* JavaScript numbers are modelled as exact rationals (`ℚ`) or integers (`ℤ`);
  floating-point artefacts are out of scope.
* A JavaScript date value is its epoch-milliseconds integer.
* A nullable / possibly-undefined value is an `Option`.
* JavaScript truthiness on a number is `≠ 0`; on a string it is `≠ ""`;
  `null`/`undefined` are falsy.
* `formatCurrency` and `checkFinancialYear` come from the `useFormatting`
  hook, whose implementation is not part of the source tree; they are
  therefore passed to the evaluator as explicit function parameters.
-/

namespace ClaimsApp

/-- Status of a single compliance check: `'pass' | 'fail' | 'warning' | 'checking'`. -/
inductive CheckStatus where
  | pass
  | fail
  | warning
  | checking
deriving DecidableEq, Repr

/-- One entry of the `policyChecks` array (id, label, status, message). -/
structure ComplianceCheck where
  id : String
  label : String
  status : CheckStatus
  message : String
deriving DecidableEq, Repr

instance : Inhabited ComplianceCheck := ⟨⟨"", "", CheckStatus.checking, ""⟩⟩

/-- `category_type : 'ALLOWANCE' | 'REIMBURSEMENT'` from usePolicies.ts. -/
inductive CategoryType where
  | ALLOWANCE
  | REIMBURSEMENT
deriving DecidableEq, Repr

/-- A JS value of type `string | string[] | null | undefined`, as used for
`policy_region` and the user's region in usePolicies.ts. -/
inductive RegionVal where
  | undef
  | str (s : String)
  | arr (l : List String)
deriving DecidableEq, Repr

/-- JS truthiness of a `RegionVal`: `null`/`undefined` and `""` are falsy,
an array (even empty) is truthy. -/
def RegionVal.truthy : RegionVal → Bool
  | RegionVal.undef => false
  | RegionVal.str s => s ≠ ""
  | RegionVal.arr _ => true

/-- `Array.isArray(x) ? x : [x]` as used inside `regionsMatch`. -/
def RegionVal.toList : RegionVal → List String
  | RegionVal.undef => []
  | RegionVal.str s => [s]
  | RegionVal.arr l => l

/-- Embeds `ExtractedClaimCategory` from usePolicies.ts, restricted to the
fields the evaluator and the category resolution read. -/
structure ExtractedClaimCategory where
  category_code : String
  category_type : CategoryType
  policy_status : String
  policy_region : RegionVal
  max_amount : Option ℚ
  submission_window_days : Option ℤ
deriving DecidableEq, Repr

/-- Embeds `regionsMatch` from usePolicies.ts: no user region matches all;
a user region with no policy region matches nothing; otherwise some user
region must be contained in the policy regions. -/
def regionsMatch (userRegion : RegionVal) (policyRegion : RegionVal) : Bool :=
  if ¬ userRegion.truthy then true
  else if ¬ policyRegion.truthy then false
  else userRegion.toList.any fun ur => policyRegion.toList.contains ur

/-- Embeds the `select` filter of `useReimbursementsByRegion` (usePolicies.ts
lines 96-104): keep categories of type REIMBURSEMENT whose policy status is
ACTIVE and whose region matches the user's region. -/
def reimbursementsByRegion (region : RegionVal) (data : List ExtractedClaimCategory) :
    List ExtractedClaimCategory :=
  data.filter fun category =>
    decide (category.category_type = CategoryType.REIMBURSEMENT) &&
    decide (category.policy_status = "ACTIVE") &&
    regionsMatch region category.policy_region

/-- JS `toLowerCase()`, modelled character by character. -/
def jsToLower (s : String) : String :=
  String.mk (s.data.map Char.toLower)

/-- Embeds `selectedCategoryPolicy` (SystemAdminSettings.tsx lines 2260-2265):
`null` when the claim has no (or an empty) category, otherwise the first
candidate whose `category_code` matches the claim's category case-insensitively,
or `null` when none does. -/
def selectedCategoryPolicy (claimCategory : String)
    (reimbursementCategories : List ExtractedClaimCategory) :
    Option ExtractedClaimCategory :=
  if claimCategory = "" then none
  else reimbursementCategories.find? fun cat =>
    decide (jsToLower cat.category_code = jsToLower claimCategory)

/-- Category resolution end to end: region/type/status filtering followed by
the case-insensitive code lookup. -/
def resolveCategory (region : RegionVal) (data : List ExtractedClaimCategory)
    (claimCategory : String) : Option ExtractedClaimCategory :=
  selectedCategoryPolicy claimCategory (reimbursementsByRegion region data)

/-- JS truthiness of an optional number (`null`/`undefined` and `0` are falsy). -/
def truthyNum (x : Option ℚ) : Bool :=
  match x with
  | none => false
  | some v => v ≠ 0

/-- JS truthiness of an optional integer. -/
def truthyInt (x : Option ℤ) : Bool :=
  match x with
  | none => false
  | some v => v ≠ 0

/-- Embeds `amountValidation` (SystemAdminSettings.tsx lines 2268-2299).
`amountStr` is the form's amount field: `none` for the empty string, `some v`
for a string parsing to `v`; `parseFloat(formData.amount || '0')` is then
`amountStr.getD 0`. `fmt` is the injected `formatCurrency`. -/
def amountValidation (fmt : ℚ → String)
    (policy : Option ExtractedClaimCategory) (amountStr : Option ℚ) :
    CheckStatus × String :=
  match policy with
  | none => (CheckStatus.warning, "No policy limits for this category")
  | some selectedCategoryPolicy =>
    let claimAmount : ℚ := amountStr.getD 0
    let maxAmount := selectedCategoryPolicy.max_amount
    if claimAmount = 0 then
      (CheckStatus.checking, "Enter amount to validate against policy")
    else if truthyNum maxAmount ∧ claimAmount > maxAmount.getD 0 then
      (CheckStatus.fail,
        "Amount " ++ fmt claimAmount ++ " exceeds policy limit of " ++ fmt (maxAmount.getD 0))
    else if truthyNum maxAmount then
      (CheckStatus.pass,
        "Amount " ++ fmt claimAmount ++ " within policy limit of " ++ fmt (maxAmount.getD 0))
    else
      (CheckStatus.pass, "Amount verified - no policy limit defined")

/-- Milliseconds per day, the divisor `1000 * 60 * 60 * 24` of `dateValidation`. -/
def msPerDay : ℤ := 1000 * 60 * 60 * 24

/-- Embeds `dateValidation` (SystemAdminSettings.tsx lines 2302-2341).
`claimDate` is `none` for an empty date field, `some d` for a date parsing to
epoch milliseconds `d`. `today` is the epoch-milliseconds reading of the
global clock that the source takes with `new Date()` at line 2321; it is made
an explicit parameter here so the embedding is a function. -/
def dateValidation (policy : Option ExtractedClaimCategory)
    (claimDate : Option ℤ) (today : ℤ) : CheckStatus × String :=
  match policy with
  | none => (CheckStatus.warning, "No date restrictions for this category")
  | some selectedCategoryPolicy =>
    match claimDate with
    | none => (CheckStatus.checking, "Enter date to validate against policy")
    | some d =>
      let submissionWindowDays := selectedCategoryPolicy.submission_window_days
      if truthyInt submissionWindowDays then
        let daysDiff : ℤ := (today - d).fdiv msPerDay
        if daysDiff > submissionWindowDays.getD 0 then
          (CheckStatus.fail,
            "Receipt date is " ++ toString daysDiff ++ " days old, exceeds " ++
              toString (submissionWindowDays.getD 0) ++ "-day submission window")
        else
          (CheckStatus.pass,
            "Within " ++ toString (submissionWindowDays.getD 0) ++
              "-day submission window (" ++ toString daysDiff ++ " days old)")
      else
        (CheckStatus.pass, "Date verified - no submission window restriction")

/-- Result of the injected `checkFinancialYear` hook (its implementation lives
in the `useFormatting` hook outside the source tree): whether the date is in
the current financial year, plus the financial-year label. -/
structure FyResult where
  isCurrentFY : Bool
  fyLabel : String
deriving DecidableEq, Repr

/-- The claim-form snapshot the evaluator reads: category code (`""` when
unset), the amount field (`none` when empty, `some v` when it parses to `v`),
the claim-date field (`none` when empty, epoch ms otherwise), the description
text, and the number of attached documents (`allDocuments.length`). -/
structure ClaimSnapshot where
  category : String
  amountStr : Option ℚ
  claimDate : Option ℤ
  description : String
  documents : ℕ
deriving DecidableEq, Repr

/-- Embeds `policyChecks` (SystemAdminSettings.tsx lines 2344-2408): the
ordered array of six compliance checks. `fmt` is the injected
`formatCurrency`, `fyCheckFn` the injected `checkFinancialYear`, `today` the
global-clock reading consumed by `dateValidation`. -/
def policyChecks (fmt : ℚ → String) (fyCheckFn : ℤ → FyResult)
    (policy : Option ExtractedClaimCategory) (s : ClaimSnapshot) (today : ℤ) :
    List ComplianceCheck :=
  let fy : CheckStatus × String :=
    match s.claimDate with
    | none => (CheckStatus.checking, "Enter date to check financial year")
    | some d =>
      let fyCheck := fyCheckFn d
      if fyCheck.isCurrentFY then
        (CheckStatus.pass, "Within current " ++ fyCheck.fyLabel)
      else
        (CheckStatus.fail, "Outside current " ++ fyCheck.fyLabel)
  let av := amountValidation fmt policy s.amountStr
  let dv := dateValidation policy s.claimDate today
  [ { id := "category", label := "Category",
      status := if s.category ≠ "" then CheckStatus.pass else CheckStatus.warning,
      message := if s.category ≠ "" then "Category: " ++ s.category else "Category not set" },
    { id := "amount", label := "Amount within limit",
      status := av.1, message := av.2 },
    { id := "date", label := "Within submission window",
      status := dv.1, message := dv.2 },
    { id := "docs", label := "Required documents",
      status := if 0 < s.documents then CheckStatus.pass else CheckStatus.warning,
      message := if 0 < s.documents then toString s.documents ++ " document(s) attached"
        else "No documents attached" },
    { id := "financial_year", label := "Current financial year",
      status := fy.1, message := fy.2 },
    { id := "description", label := "Description provided",
      status := if s.description ≠ "" ∧ 10 < s.description.length then CheckStatus.pass
        else CheckStatus.warning,
      message := if s.description ≠ "" ∧ 10 < s.description.length then "Description provided"
        else "Add a detailed description" } ]

/-- Modelled from the spec: the reference status of the "amount" check,
following the specification's order of cases word for word — warning when no
category matched; pass when the matched category has no `max_amount`;
checking when the amount is unset or zero; otherwise fail exactly when
`amount > max_amount`, else pass. -/
def amountSpecStatus (policy : Option ExtractedClaimCategory)
    (amountStr : Option ℚ) : CheckStatus :=
  match policy with
  | none => CheckStatus.warning
  | some p =>
    match p.max_amount with
    | none => CheckStatus.pass
    | some m =>
      if amountStr.getD 0 = 0 then CheckStatus.checking
      else if amountStr.getD 0 > m then CheckStatus.fail
      else CheckStatus.pass

/-- Reference status of the "amount" check amended to match the source: the
unset/zero-amount test runs before the `max_amount` test, and a `max_amount`
of zero is treated like an absent limit (JS truthiness). -/
def amountAmendedStatus (policy : Option ExtractedClaimCategory)
    (amountStr : Option ℚ) : CheckStatus :=
  match policy with
  | none => CheckStatus.warning
  | some p =>
    if amountStr.getD 0 = 0 then CheckStatus.checking
    else
      match p.max_amount with
      | none => CheckStatus.pass
      | some m =>
        if m ≠ 0 ∧ amountStr.getD 0 > m then CheckStatus.fail
        else CheckStatus.pass

/-- Modelled from the spec: the reference status of the "date" check,
following the specification's order of cases word for word — warning when no
category matched; pass when the category has no `submission_window_days`;
checking when the claim date is unset; otherwise with
`days_diff = floor((today - claim_date) in days)`, fail exactly when
`days_diff > submission_window_days`, else pass. -/
def dateSpecStatus (policy : Option ExtractedClaimCategory)
    (claimDate : Option ℤ) (today : ℤ) : CheckStatus :=
  match policy with
  | none => CheckStatus.warning
  | some p =>
    match p.submission_window_days with
    | none => CheckStatus.pass
    | some w =>
      match claimDate with
      | none => CheckStatus.checking
      | some d =>
        if (today - d).fdiv msPerDay > w then CheckStatus.fail
        else CheckStatus.pass

/-- Reference status of the "date" check amended to match the source: the
unset-date test runs before the window test, and a `submission_window_days`
of zero is treated like an absent window (JS truthiness). -/
def dateAmendedStatus (policy : Option ExtractedClaimCategory)
    (claimDate : Option ℤ) (today : ℤ) : CheckStatus :=
  match policy with
  | none => CheckStatus.warning
  | some p =>
    match claimDate with
    | none => CheckStatus.checking
    | some d =>
      match p.submission_window_days with
      | none => CheckStatus.pass
      | some w =>
        if w ≠ 0 ∧ (today - d).fdiv msPerDay > w then CheckStatus.fail
        else CheckStatus.pass

/-- Claim lifecycle states. The frontend source writes the returned state as
the string `'returned'` (line 2483) and the resubmission target as
`'PENDING_MANAGER'` (line 2436); they are the spec's `RETURNED_TO_EMPLOYEE`
and `PENDING_MANAGER`. -/
inductive ClaimStatus where
  | DRAFT
  | PENDING_MANAGER
  | PENDING_HR
  | PENDING_FINANCE
  | FINANCE_APPROVED
  | SETTLED
  | REJECTED
  | RETURNED_TO_EMPLOYEE
deriving DecidableEq, Repr

/-- The claim fields the edit page reads and writes. -/
structure Claim where
  status : ClaimStatus
  amount : ℚ
  claimDate : Option ℤ
  description : String
  returnCount : ℕ
deriving DecidableEq, Repr

/-- The edit form's state (`formData`): amount field (`none` for the empty
string), claim-date field, description text. -/
structure FormData where
  amount : Option ℚ
  claim_date : Option ℤ
  description : String
deriving DecidableEq, Repr

/-- Embeds `ClaimUpdateData` as built by `handleSubmit`: each field is
included only when the corresponding form field is truthy. -/
structure ClaimUpdateData where
  amount : Option ℚ
  claim_date : Option ℤ
  description : Option String
  status : Option ClaimStatus
deriving DecidableEq, Repr

/-- Embeds the `updateData` construction of `handleSubmit`
(SystemAdminSettings.tsx lines 2417-2436): copy each truthy form field and
always set `status := 'PENDING_MANAGER'` for resubmission. -/
def handleSubmitUpdate (formData : FormData) : ClaimUpdateData :=
  { amount := formData.amount
    claim_date := formData.claim_date
    description := if formData.description ≠ "" then some formData.description else none
    status := some ClaimStatus.PENDING_MANAGER }

/-- Modelled from the spec: the persistence collaborator's application of a
`ClaimUpdateData` to a stored claim (`updateClaim.mutateAsync` talks to the
backend, which is not part of the source tree) — each present field
overwrites the stored one, absent fields are kept. -/
def applyUpdate (c : Claim) (u : ClaimUpdateData) : Claim :=
  { c with
      amount := u.amount.getD c.amount
      claimDate := match u.claim_date with | some d => some d | none => c.claimDate
      description := u.description.getD c.description
      status := u.status.getD c.status }

/-- The edit gate of the `EditClaim` page (SystemAdminSettings.tsx line 2483):
only returned claims can be edited. -/
def canEdit (status : ClaimStatus) : Bool :=
  status = ClaimStatus.RETURNED_TO_EMPLOYEE

/-- Error kinds of the lifecycle manager; `ClaimNotEditable` is the typed
form (spec §7) of the edit gate's refusal. -/
inductive EditError where
  | ClaimNotEditable
deriving DecidableEq, Repr

/-- The edit-and-resubmit operation of the `EditClaim` page: the `canEdit`
gate (line 2483) guards `handleSubmit` (lines 2410-2446); on a non-returned
claim the operation fails with the typed `ClaimNotEditable` refusal
(modelled from the spec §7) and no update is applied. -/
def edit_claim (c : Claim) (formData : FormData) : Except EditError Claim :=
  if canEdit c.status then
    Except.ok (applyUpdate c (handleSubmitUpdate formData))
  else
    Except.error EditError.ClaimNotEditable

/-- The stored claim after an edit attempt: unchanged when the gate refuses. -/
def editOutcome (c : Claim) (formData : FormData) : Claim :=
  match edit_claim c formData with
  | Except.ok c2 => c2
  | Except.error _ => c

/-- A browser `File` as the upload intake sees it: name, MIME type, byte size. -/
structure JsFile where
  name : String
  mime : String
  size : ℕ
deriving DecidableEq, Repr

/-- File kind as classified by `getFileType`. -/
inductive FileKind where
  | image
  | pdf
  | other
deriving DecidableEq, Repr

/-- The extension of a file name: `name.toLowerCase().split('.').pop() || ''`
— the lowercased characters after the last dot (the whole name when there is
no dot, the empty string when the name ends in a dot), exactly the last
element of the JS split. -/
def fileExt (name : String) : String :=
  String.mk (((jsToLower name).data.reverse.takeWhile fun c => c ≠ '.').reverse)

/-- Embeds `getFileType` (PolicyChecks.tsx lines 124-129). -/
def getFileType (name : String) : FileKind :=
  if ["jpg", "jpeg", "png", "gif", "webp"].contains (fileExt name) then FileKind.image
  else if fileExt name = "pdf" then FileKind.pdf
  else FileKind.other

/-- One-decimal rendering of `bytes / divisor`, the model of JS
`(bytes / divisor).toFixed(1)`: exact decimal rounding, half up, computed as
`floor((bytes / divisor) * 10 + 1 / 2) = (20 * bytes + divisor) / (2 * divisor)`
in natural-number arithmetic. -/
def toFixed1Of (bytes divisor : ℕ) : String :=
  let tenths := (20 * bytes + divisor) / (2 * divisor)
  toString (tenths / 10) ++ "." ++ toString (tenths % 10)

/-- Embeds `formatFileSize` (PolicyChecks.tsx lines 131-135). -/
def formatFileSize (bytes : ℕ) : String :=
  if bytes < 1024 then toString bytes ++ " B"
  else if bytes < 1024 * 1024 then toFixed1Of bytes 1024 ++ " KB"
  else toFixed1Of bytes (1024 * 1024) ++ " MB"

/-- Embeds `isValidFileType` (PolicyChecks.tsx lines 137-142): accepted MIME
type or accepted extension. -/
def isValidFileType (file : JsFile) : Bool :=
  ["application/pdf", "image/jpeg", "image/jpg", "image/png", "image/gif",
    "image/webp"].contains file.mime ||
  ["pdf", "jpg", "jpeg", "png", "gif", "webp"].contains (fileExt file.name)

/-- One entry of the upload component's `files` state. `id` is the random id
the source draws from `Math.random()`; the embedding receives it as input. -/
structure UploadedFile where
  id : String
  name : String
  size : String
  kind : FileKind
  file : JsFile
deriving DecidableEq, Repr

/-- The `newFile` record both handlers build from the first valid file. -/
def mkUploadedFile (newId : String) (file : JsFile) : UploadedFile :=
  { id := newId
    name := file.name
    size := formatFileSize file.size
    kind := getFileType file.name
    file := file }

/-- Embeds `handleDrop` (PolicyChecks.tsx lines 144-176): filter the dropped
files to the valid ones; if none is valid, alert and leave the state alone;
otherwise replace the whole state with the first valid file. -/
def handleDrop (newId : String) (droppedFiles : List JsFile)
    (files : List UploadedFile) : List UploadedFile :=
  match droppedFiles.filter isValidFileType with
  | [] => files
  | file :: _ => [mkUploadedFile newId file]

/-- Embeds `handleFileInput` (PolicyChecks.tsx lines 178-207); identical
state logic to `handleDrop` (the input-element reset has no state effect). -/
def handleFileInput (newId : String) (selectedFiles : List JsFile)
    (files : List UploadedFile) : List UploadedFile :=
  match selectedFiles.filter isValidFileType with
  | [] => files
  | file :: _ => [mkUploadedFile newId file]

/-- Embeds `removeFile` (PolicyChecks.tsx lines 209-213). -/
def removeFile (rid : String) (files : List UploadedFile) : List UploadedFile :=
  files.filter fun f => decide (f.id ≠ rid)

/-- A user interaction with the upload component. -/
inductive UploadEvent where
  | drop (newId : String) (offered : List JsFile)
  | input (newId : String) (offered : List JsFile)
  | remove (rid : String)
deriving DecidableEq, Repr

/-- One step of the upload component's `files` state. -/
def stepUpload (files : List UploadedFile) : UploadEvent → List UploadedFile
  | UploadEvent.drop newId offered => handleDrop newId offered files
  | UploadEvent.input newId offered => handleFileInput newId offered files
  | UploadEvent.remove rid => removeFile rid files

/-- The `files` state after a sequence of interactions, starting from the
initial `useState([])`. -/
def runUpload (events : List UploadEvent) : List UploadedFile :=
  events.foldl stepUpload []

/-! Concrete fixtures used by the counterexamples and witnesses below. -/

/-- A stand-in for the injected `formatCurrency` hook. -/
def fmt0 : ℚ → String := fun q => toString q

/-- A stand-in for the injected `checkFinancialYear` hook. -/
def fy0 : ℤ → FyResult := fun _ => { isCurrentFY := true, fyLabel := "FY 2025-26" }

/-- An active reimbursement category with no maximum amount. -/
def catNoMax : ExtractedClaimCategory :=
  { category_code := "Travel"
    category_type := CategoryType.REIMBURSEMENT
    policy_status := "ACTIVE"
    policy_region := RegionVal.arr ["IN"]
    max_amount := none
    submission_window_days := some 30 }

/-- An active reimbursement category with a 5000 maximum and 30-day window. -/
def catMax5000 : ExtractedClaimCategory :=
  { category_code := "Meals"
    category_type := CategoryType.REIMBURSEMENT
    policy_status := "ACTIVE"
    policy_region := RegionVal.arr ["IN"]
    max_amount := some 5000
    submission_window_days := some 30 }

/-- An active reimbursement category with no submission window. -/
def catNoWin : ExtractedClaimCategory :=
  { category_code := "Books"
    category_type := CategoryType.REIMBURSEMENT
    policy_status := "ACTIVE"
    policy_region := RegionVal.arr ["IN"]
    max_amount := some 2000
    submission_window_days := none }

/-- An expired (inactive) reimbursement category with the same code as
`catNoMax`. -/
def catInactive : ExtractedClaimCategory :=
  { category_code := "Travel"
    category_type := CategoryType.REIMBURSEMENT
    policy_status := "EXPIRED"
    policy_region := RegionVal.arr ["IN"]
    max_amount := some 100
    submission_window_days := some 7 }

/-- An active allowance category (wrong type for reimbursement lookup). -/
def catAllowance : ExtractedClaimCategory :=
  { category_code := "Travel"
    category_type := CategoryType.ALLOWANCE
    policy_status := "ACTIVE"
    policy_region := RegionVal.arr ["IN"]
    max_amount := some 300
    submission_window_days := some 7 }

/-- The category list used by the resolution witness. -/
def cats0 : List ExtractedClaimCategory := [catInactive, catAllowance, catNoMax]

/-- A sample claim snapshot. -/
def snap0 : ClaimSnapshot :=
  { category := "Travel"
    amountStr := some 6000
    claimDate := some 0
    description := "Taxi from airport to office"
    documents := 1 }

/-- A sample edit-form state. -/
def fd0 : FormData :=
  { amount := some 1200
    claim_date := some 86400000
    description := "Updated description of the expense" }

/-- A claim sitting at the HR review stage. -/
def claimPendingHR : Claim :=
  { status := ClaimStatus.PENDING_HR
    amount := 900
    claimDate := some 0
    description := "Team lunch"
    returnCount := 0 }

/-- A claim returned to the employee (with one recorded return). -/
def claimReturned : Claim :=
  { status := ClaimStatus.RETURNED_TO_EMPLOYEE
    amount := 900
    claimDate := some 0
    description := "Team lunch"
    returnCount := 1 }

/-! Theorems settling the claims. -/

/-- C1 counterexample: the source's "amount" check differs from the
specification's reference definition. With a matched category that has no
`max_amount` and an unset amount, the source returns `checking` (the
unset-amount branch at line 2279 runs before the `max_amount` test) while
the specification's order of cases gives `pass` ("no limit defined"). -/
theorem amount_check_spec_counterexample :
    (amountValidation fmt0 (some catNoMax) none).1 ≠ amountSpecStatus (some catNoMax) none := by
  decide

/-- C1 amended: the "amount" check equals the reference amended to test the
unset/zero amount first and to treat a zero `max_amount` like an absent limit
(JS truthiness); a `fail` verdict still carries both values in its message. -/
theorem amount_check_amended (fmt : ℚ → String)
    (policy : Option ExtractedClaimCategory) (amountStr : Option ℚ) :
    (amountValidation fmt policy amountStr).1 = amountAmendedStatus policy amountStr ∧
    ((amountValidation fmt policy amountStr).1 = CheckStatus.fail →
      ∃ p m, policy = some p ∧ p.max_amount = some m ∧
        (amountValidation fmt policy amountStr).2 =
          "Amount " ++ fmt (amountStr.getD 0) ++ " exceeds policy limit of " ++ fmt m) := by
  cases policy with
  | none => exact ⟨rfl, by simp [amountValidation]⟩
  | some p =>
    by_cases h0 : amountStr.getD 0 = 0
    · constructor
      · simp [amountValidation, amountAmendedStatus, h0]
      · simp [amountValidation, h0]
    · cases hm : p.max_amount with
      | none =>
        constructor
        · simp [amountValidation, amountAmendedStatus, truthyNum, h0, hm]
        · simp [amountValidation, truthyNum, h0, hm]
      | some m =>
        by_cases hf : m ≠ 0 ∧ amountStr.getD 0 > m
        · refine ⟨?_, fun _ => ⟨p, m, rfl, hm, ?_⟩⟩
          · simp [amountValidation, amountAmendedStatus, truthyNum, h0, hm, hf]
          · simp [amountValidation, truthyNum, h0, hm, hf]
        · constructor
          · by_cases htr : m = 0
            · simp [amountValidation, amountAmendedStatus, truthyNum, h0, hm, htr]
            · have hng : ¬ amountStr.getD 0 > m := fun hgt => hf ⟨htr, hgt⟩
              simp [amountValidation, amountAmendedStatus, truthyNum, h0, hm, htr, hng]
          · by_cases htr : m = 0
            · simp [amountValidation, truthyNum, h0, hm, htr]
            · have hng : ¬ amountStr.getD 0 > m := fun hgt => hf ⟨htr, hgt⟩
              simp [amountValidation, truthyNum, h0, hm, htr, hng]

/-- C1 witness: amount 6000 against limit 5000 fails and the message cites
both values (spec scenario A). -/
theorem amount_check_amended_witness :
    ∃ p m, (some catMax5000 : Option ExtractedClaimCategory) = some p ∧
      p.max_amount = some m ∧
      (amountValidation fmt0 (some catMax5000) (some 6000)).2 =
        "Amount " ++ fmt0 ((some (6000 : ℚ)).getD 0) ++ " exceeds policy limit of " ++ fmt0 m :=
  (amount_check_amended fmt0 (some catMax5000) (some 6000)).2 (by decide)

/-- C2 counterexample: the source's "date" (submission window) check differs
from the specification's reference definition. With a matched category that
has no `submission_window_days` and an unset claim date, the source returns
`checking` (the unset-date branch at line 2313 runs before the window test)
while the specification's order of cases gives `pass` ("no restriction"). -/
theorem date_check_spec_counterexample :
    (dateValidation (some catNoWin) none 0).1 ≠ dateSpecStatus (some catNoWin) none 0 := by
  decide

/-- C2 amended: the "date" check equals the reference amended to test the
unset date first and to treat a zero `submission_window_days` like an absent
window (JS truthiness); a `fail` verdict still carries both numbers in its
message. -/
theorem date_check_amended (policy : Option ExtractedClaimCategory)
    (claimDate : Option ℤ) (today : ℤ) :
    (dateValidation policy claimDate today).1 = dateAmendedStatus policy claimDate today ∧
    ((dateValidation policy claimDate today).1 = CheckStatus.fail →
      ∃ p w d, policy = some p ∧ p.submission_window_days = some w ∧ claimDate = some d ∧
        (dateValidation policy claimDate today).2 =
          "Receipt date is " ++ toString ((today - d).fdiv msPerDay) ++
            " days old, exceeds " ++ toString w ++ "-day submission window") := by
  cases policy with
  | none => exact ⟨rfl, by simp [dateValidation]⟩
  | some p =>
    cases claimDate with
    | none => exact ⟨rfl, by simp [dateValidation]⟩
    | some d =>
      cases hw : p.submission_window_days with
      | none =>
        constructor
        · simp [dateValidation, dateAmendedStatus, truthyInt, hw]
        · simp [dateValidation, truthyInt, hw]
      | some w =>
        by_cases hw0 : w = 0
        · constructor
          · simp [dateValidation, dateAmendedStatus, truthyInt, hw, hw0]
          · simp [dateValidation, truthyInt, hw, hw0]
        · by_cases hgt : (today - d).fdiv msPerDay > w
          · refine ⟨?_, fun _ => ⟨p, w, d, rfl, hw, rfl, ?_⟩⟩
            · simp [dateValidation, dateAmendedStatus, truthyInt, hw, hw0, hgt]
            · simp [dateValidation, truthyInt, hw, hw0, hgt]
          · constructor
            · simp [dateValidation, dateAmendedStatus, truthyInt, hw, hw0, hgt]
            · simp [dateValidation, truthyInt, hw, hw0, hgt]

/-- C2 witness: a claim dated 40 days before today against a 30-day window
fails and the message cites both numbers (spec scenario B). -/
theorem date_check_amended_witness :
    ∃ p w d, (some catMax5000 : Option ExtractedClaimCategory) = some p ∧
      p.submission_window_days = some w ∧ (some (0 : ℤ) : Option ℤ) = some d ∧
      (dateValidation (some catMax5000) (some 0) (40 * msPerDay)).2 =
        "Receipt date is " ++ toString ((40 * msPerDay - d).fdiv msPerDay) ++
          " days old, exceeds " ++ toString w ++ "-day submission window" :=
  (date_check_amended (some catMax5000) (some 0) (40 * msPerDay)).2 (by decide)

/-- The check with a given id, and its status (used to address individual
entries of the evaluator's output). -/
def statusOf (checks : List ComplianceCheck) (cid : String) : Option CheckStatus :=
  (checks.find? fun c => decide (c.id = cid)).map ComplianceCheck.status

/-- C3: for every input, the evaluator produces exactly six checks, in the
fixed order category, amount, date, docs, financial_year, description. -/
theorem policy_checks_order (fmt : ℚ → String) (fyCheckFn : ℤ → FyResult)
    (policy : Option ExtractedClaimCategory) (s : ClaimSnapshot) (today : ℤ) :
    (policyChecks fmt fyCheckFn policy s today).map ComplianceCheck.id =
      ["category", "amount", "date", "docs", "financial_year", "description"] ∧
    (policyChecks fmt fyCheckFn policy s today).length = 6 := by
  exact ⟨rfl, rfl⟩

/-- C4 counterexample: in the source, `today` is read from the global clock
(`new Date()`, SystemAdminSettings.tsx line 2321) inside `dateValidation`,
not supplied by the caller; the embedding makes that ambient reading an
explicit argument, and two evaluations with identical caller-visible inputs
(category, claim date) but different clock readings produce different
outputs, so the evaluator's output is not a function of the claim snapshot
and matched category alone. -/
theorem evaluator_clock_dependence :
    dateValidation (some catMax5000) (some 0) (31 * msPerDay) ≠
      dateValidation (some catMax5000) (some 0) 0 := by
  decide

/-- C4 amended: once the ambient clock reading is abstracted as an explicit
`today` parameter (together with the injected formatting hooks), the
evaluator is deterministic — identical inputs give identical outputs. -/
theorem evaluator_deterministic (fmt₁ fmt₂ : ℚ → String)
    (fy₁ fy₂ : ℤ → FyResult) (pol₁ pol₂ : Option ExtractedClaimCategory)
    (s₁ s₂ : ClaimSnapshot) (t₁ t₂ : ℤ)
    (hfmt : fmt₁ = fmt₂) (hfy : fy₁ = fy₂) (hp : pol₁ = pol₂)
    (hs : s₁ = s₂) (ht : t₁ = t₂) :
    policyChecks fmt₁ fy₁ pol₁ s₁ t₁ = policyChecks fmt₂ fy₂ pol₂ s₂ t₂ := by
  rw [hfmt, hfy, hp, hs, ht]

/-- C4 witness: determinism at a concrete input. -/
theorem evaluator_deterministic_witness :
    policyChecks fmt0 fy0 (some catMax5000) snap0 0 =
      policyChecks fmt0 fy0 (some catMax5000) snap0 0 :=
  evaluator_deterministic fmt0 fmt0 fy0 fy0 (some catMax5000) (some catMax5000)
    snap0 snap0 0 0 rfl rfl rfl rfl rfl

/-- C5: the edit gate — on a claim whose status is not RETURNED_TO_EMPLOYEE
the edit fails with `ClaimNotEditable` and the stored claim is unchanged,
for every such status; an edit succeeds exactly when the status is
RETURNED_TO_EMPLOYEE. -/
theorem edit_gate (c : Claim) (formData : FormData) :
    (c.status ≠ ClaimStatus.RETURNED_TO_EMPLOYEE →
      edit_claim c formData = Except.error EditError.ClaimNotEditable ∧
      editOutcome c formData = c) ∧
    ((∃ c2, edit_claim c formData = Except.ok c2) ↔
      c.status = ClaimStatus.RETURNED_TO_EMPLOYEE) := by
  by_cases h : c.status = ClaimStatus.RETURNED_TO_EMPLOYEE
  · refine ⟨fun hne => absurd h hne, ?_⟩
    simp [edit_claim, canEdit, editOutcome, h]
  · refine ⟨fun _ => ?_, ?_⟩
    · simp [edit_claim, canEdit, editOutcome, h]
    · simp [edit_claim, canEdit, h]

/-- C5 witness: editing a claim at the HR stage is refused and leaves the
claim unchanged (spec scenario E). -/
theorem edit_gate_witness :
    edit_claim claimPendingHR fd0 = Except.error EditError.ClaimNotEditable ∧
    editOutcome claimPendingHR fd0 = claimPendingHR :=
  (edit_gate claimPendingHR fd0).1 (by decide)

/-- C6: on a returned claim, the edit succeeds and the resubmitted claim's
status is PENDING_MANAGER — the update built by `handleSubmit` always sets
`status := 'PENDING_MANAGER'` (line 2436), whatever stage issued the return
and whatever the form contains. -/
theorem resubmit_targets_pending_manager (c : Claim) (formData : FormData)
    (h : c.status = ClaimStatus.RETURNED_TO_EMPLOYEE) :
    ∃ c2, edit_claim c formData = Except.ok c2 ∧
      c2.status = ClaimStatus.PENDING_MANAGER := by
  refine ⟨applyUpdate c (handleSubmitUpdate formData), ?_, ?_⟩
  · simp [edit_claim, canEdit, h]
  · simp [applyUpdate, handleSubmitUpdate]

/-- C6 witness: resubmitting a concrete returned claim lands in
PENDING_MANAGER. -/
theorem resubmit_targets_pending_manager_witness :
    ∃ c2, edit_claim claimReturned fd0 = Except.ok c2 ∧
      c2.status = ClaimStatus.PENDING_MANAGER :=
  resubmit_targets_pending_manager claimReturned fd0 (by decide)

/-- C7: the evaluator is total on well-typed input (it is a Lean function
producing six checks for every input); with no matched category the amount
and date checks degrade to `warning`, and with a matched category an unset
or zero amount (resp. an unset date) degrades to `checking` — never an
error. -/
theorem evaluator_degrades (fmt : ℚ → String) (fyCheckFn : ℤ → FyResult)
    (s : ClaimSnapshot) (today : ℤ) (p : ExtractedClaimCategory) :
    (policyChecks fmt fyCheckFn none s today).length = 6 ∧
    statusOf (policyChecks fmt fyCheckFn none s today) "amount" =
      some CheckStatus.warning ∧
    statusOf (policyChecks fmt fyCheckFn none s today) "date" =
      some CheckStatus.warning ∧
    (s.amountStr.getD 0 = 0 →
      statusOf (policyChecks fmt fyCheckFn (some p) s today) "amount" =
        some CheckStatus.checking) ∧
    (s.claimDate = none →
      statusOf (policyChecks fmt fyCheckFn (some p) s today) "date" =
        some CheckStatus.checking) := by
  refine ⟨rfl, rfl, rfl, fun h0 => ?_, fun hd => ?_⟩
  · simp [statusOf, policyChecks, List.find?, amountValidation, h0]
  · simp [statusOf, policyChecks, List.find?, dateValidation, hd]

/-- C7 witness: a snapshot with empty amount and date fields against a
matched category yields `checking` on both policy-dependent checks. -/
theorem evaluator_degrades_witness :
    ((ClaimSnapshot.mk "Travel" none none "" 0).amountStr.getD 0 = 0 ∧
      statusOf (policyChecks fmt0 fy0 (some catMax5000)
        (ClaimSnapshot.mk "Travel" none none "" 0) 0) "amount" =
        some CheckStatus.checking) ∧
    ((ClaimSnapshot.mk "Travel" none none "" 0).claimDate = none ∧
      statusOf (policyChecks fmt0 fy0 (some catMax5000)
        (ClaimSnapshot.mk "Travel" none none "" 0) 0) "date" =
        some CheckStatus.checking) :=
  ⟨⟨rfl, (evaluator_degrades fmt0 fy0 (ClaimSnapshot.mk "Travel" none none "" 0)
      0 catMax5000).2.2.2.1 rfl⟩,
    ⟨rfl, (evaluator_degrades fmt0 fy0 (ClaimSnapshot.mk "Travel" none none "" 0)
      0 catMax5000).2.2.2.2 rfl⟩⟩

/-- C9: the "docs" check passes exactly when at least one document is
attached, warns exactly when none is, and never fails. -/
theorem docs_check_never_fails (fmt : ℚ → String) (fyCheckFn : ℤ → FyResult)
    (policy : Option ExtractedClaimCategory) (s : ClaimSnapshot) (today : ℤ) :
    (statusOf (policyChecks fmt fyCheckFn policy s today) "docs" =
        some CheckStatus.pass ↔ 1 ≤ s.documents) ∧
    (statusOf (policyChecks fmt fyCheckFn policy s today) "docs" =
        some CheckStatus.warning ↔ s.documents = 0) ∧
    statusOf (policyChecks fmt fyCheckFn policy s today) "docs" ≠
      some CheckStatus.fail := by
  by_cases hd : 0 < s.documents
  · refine ⟨?_, ?_, ?_⟩ <;>
      simp [statusOf, policyChecks, List.find?, hd] <;> omega
  · refine ⟨?_, ?_, ?_⟩ <;>
      simp [statusOf, policyChecks, List.find?, hd] <;> omega

/-- C9 witness: the docs check at a concrete snapshot with one attached
document. -/
theorem docs_check_never_fails_witness :
    (statusOf (policyChecks fmt0 fy0 (some catMax5000) snap0 0) "docs" =
        some CheckStatus.pass ↔ 1 ≤ snap0.documents) ∧
    (statusOf (policyChecks fmt0 fy0 (some catMax5000) snap0 0) "docs" =
        some CheckStatus.warning ↔ snap0.documents = 0) ∧
    statusOf (policyChecks fmt0 fy0 (some catMax5000) snap0 0) "docs" ≠
      some CheckStatus.fail :=
  docs_check_never_fails fmt0 fy0 (some catMax5000) snap0 0

/-- C8: category resolution yields at most one category (it is an `Option`):
any resolved category comes from the supplied data, is of type REIMBURSEMENT,
has an ACTIVE policy, matches the claimant's region, and matches the claim's
code case-insensitively; and when no candidate satisfies all of that the
resolution is `none` — in particular a claim referencing an inactive
category resolves to `none` and stays evaluable through the null-category
degradation. -/
theorem category_resolution (region : RegionVal)
    (data : List ExtractedClaimCategory) (claimCategory : String) :
    (∀ p, resolveCategory region data claimCategory = some p →
      p ∈ data ∧ p.category_type = CategoryType.REIMBURSEMENT ∧
      p.policy_status = "ACTIVE" ∧ regionsMatch region p.policy_region = true ∧
      jsToLower p.category_code = jsToLower claimCategory) ∧
    ((∀ p ∈ data, ¬(p.category_type = CategoryType.REIMBURSEMENT ∧
        p.policy_status = "ACTIVE" ∧ regionsMatch region p.policy_region = true ∧
        jsToLower p.category_code = jsToLower claimCategory)) →
      resolveCategory region data claimCategory = none) := by
  constructor
  · intro p hp
    unfold resolveCategory selectedCategoryPolicy at hp
    by_cases hc : claimCategory = ""
    · simp [hc] at hp
    · rw [if_neg hc] at hp
      have hmem := List.mem_of_find?_eq_some hp
      have hpred := List.find?_some hp
      unfold reimbursementsByRegion at hmem
      rw [List.mem_filter] at hmem
      obtain ⟨hdata, hflt⟩ := hmem
      simp only [Bool.and_eq_true, decide_eq_true_eq] at hflt hpred
      exact ⟨hdata, hflt.1.1, hflt.1.2, hflt.2, hpred⟩
  · intro hall
    unfold resolveCategory selectedCategoryPolicy
    by_cases hc : claimCategory = ""
    · simp [hc]
    · rw [if_neg hc]
      apply List.find?_eq_none.mpr
      intro x hx
      unfold reimbursementsByRegion at hx
      rw [List.mem_filter] at hx
      obtain ⟨hdata, hflt⟩ := hx
      simp only [Bool.and_eq_true, decide_eq_true_eq] at hflt
      simp only [decide_eq_true_eq]
      intro hlow
      exact hall x hdata ⟨hflt.1.1, hflt.1.2, hflt.2, hlow⟩

/-- C8 witness: against a list containing an inactive category, an allowance
category and an active reimbursement category all coded "Travel", the claim
category "TRAVEL" resolves to the active reimbursement one, which satisfies
every candidate condition. -/
theorem category_resolution_witness :
    catNoMax ∈ cats0 ∧ catNoMax.category_type = CategoryType.REIMBURSEMENT ∧
    catNoMax.policy_status = "ACTIVE" ∧
    regionsMatch (RegionVal.str "IN") catNoMax.policy_region = true ∧
    jsToLower catNoMax.category_code = jsToLower "TRAVEL" :=
  (category_resolution (RegionVal.str "IN") cats0 "TRAVEL").1 catNoMax (by decide)

/-- Each step of the upload component keeps the attached-file list at length
at most one: the handlers either leave the state alone or replace it by a
one-element list, and removal only shrinks it. -/
theorem stepUpload_length_le (files : List UploadedFile) (e : UploadEvent)
    (h : files.length ≤ 1) : (stepUpload files e).length ≤ 1 := by
  cases e with
  | drop newId offered =>
    show (handleDrop newId offered files).length ≤ 1
    unfold handleDrop
    cases hv : offered.filter isValidFileType with
    | nil => exact h
    | cons f t => simp
  | input newId offered =>
    show (handleFileInput newId offered files).length ≤ 1
    unfold handleFileInput
    cases hv : offered.filter isValidFileType with
    | nil => exact h
    | cons f t => simp
  | remove rid =>
    show (removeFile rid files).length ≤ 1
    unfold removeFile
    exact le_trans (List.length_filter_le _ _) h

/-- Folding any sequence of upload events from a state of length at most one
stays at length at most one. -/
theorem foldl_stepUpload_length_le (events : List UploadEvent)
    (files : List UploadedFile) (h : files.length ≤ 1) :
    (events.foldl stepUpload files).length ≤ 1 := by
  induction events generalizing files with
  | nil => exact h
  | cons e t ih => exact ih (stepUpload files e) (stepUpload_length_le files e h)

/-- C10: the upload intake attaches at most one file. A drop or file-input
selection whose offered files contain a valid one replaces the whole state
with exactly that first valid file (which is indeed one of the offered files
and valid); a selection with no valid file leaves the state alone; and after
any sequence of drops, selections and removals starting from the empty
state, at most one file is attached. -/
theorem upload_at_most_one_file :
    (∀ newId offered cur f,
      (offered.filter isValidFileType).head? = some f →
        handleDrop newId offered cur = [mkUploadedFile newId f] ∧
        handleFileInput newId offered cur = [mkUploadedFile newId f] ∧
        f ∈ offered ∧ isValidFileType f = true) ∧
    (∀ newId offered cur, offered.filter isValidFileType = [] →
      handleDrop newId offered cur = cur ∧ handleFileInput newId offered cur = cur) ∧
    (∀ events, (runUpload events).length ≤ 1) := by
  refine ⟨?_, ?_, ?_⟩
  · intro newId offered cur f hf
    cases hv : offered.filter isValidFileType with
    | nil => rw [hv] at hf; simp at hf
    | cons a t =>
      rw [hv] at hf
      have haf : a = f := by simpa using hf
      have hmem : a ∈ offered.filter isValidFileType := by
        rw [hv]; exact List.mem_cons_self a t
      rw [List.mem_filter] at hmem
      subst haf
      refine ⟨?_, ?_, hmem.1, hmem.2⟩
      · unfold handleDrop; rw [hv]
      · unfold handleFileInput; rw [hv]
  · intro newId offered cur hv
    constructor
    · unfold handleDrop; rw [hv]
    · unfold handleFileInput; rw [hv]
  · intro events
    exact foldl_stepUpload_length_le events [] (by simp)

/-- C10 witness: dropping an invalid file together with two valid ones onto a
state holding a file replaces the state with exactly the first valid offered
file. -/
theorem upload_at_most_one_file_witness :
    handleDrop "id2" [JsFile.mk "notes.txt" "text/plain" 10,
        JsFile.mk "receipt.pdf" "application/pdf" 2048,
        JsFile.mk "photo.png" "image/png" 4096]
      [mkUploadedFile "id1" (JsFile.mk "old.pdf" "application/pdf" 100)] =
      [mkUploadedFile "id2" (JsFile.mk "receipt.pdf" "application/pdf" 2048)] ∧
    handleFileInput "id2" [JsFile.mk "notes.txt" "text/plain" 10,
        JsFile.mk "receipt.pdf" "application/pdf" 2048,
        JsFile.mk "photo.png" "image/png" 4096]
      [mkUploadedFile "id1" (JsFile.mk "old.pdf" "application/pdf" 100)] =
      [mkUploadedFile "id2" (JsFile.mk "receipt.pdf" "application/pdf" 2048)] ∧
    JsFile.mk "receipt.pdf" "application/pdf" 2048 ∈
      [JsFile.mk "notes.txt" "text/plain" 10,
        JsFile.mk "receipt.pdf" "application/pdf" 2048,
        JsFile.mk "photo.png" "image/png" 4096] ∧
    isValidFileType (JsFile.mk "receipt.pdf" "application/pdf" 2048) = true :=
  upload_at_most_one_file.1 "id2"
    [JsFile.mk "notes.txt" "text/plain" 10,
      JsFile.mk "receipt.pdf" "application/pdf" 2048,
      JsFile.mk "photo.png" "image/png" 4096]
    [mkUploadedFile "id1" (JsFile.mk "old.pdf" "application/pdf" 100)]
    (JsFile.mk "receipt.pdf" "application/pdf" 2048) (by decide)

end ClaimsApp
